import Mathlib

/-
  Verification development for the photogrammetry point-cloud colorization
  pipeline.  The definitions below are shallow embeddings of the Python
  sources:
    src/archive/process_point_cloud_original_20250605.py  (the PointCloudColorizer
      class: CRS range heuristics, batched coordinate transform, the
      correction loop inside colorize_point_cloud, color scaling, and
      save_colorized_point_cloud), and
    src/scripts/process_point_cloud.py  (identify_point_cloud_crs,
      transform_coordinates bounds fallback, extract_colors_from_image,
      save_colorized_point_cloud).
  Machine integers are modelled as Nat with explicit mod 2^16 where the numpy
  uint16 casts can wrap; raster pixel values and coordinates are exact
  rationals.  Fallible code returns Except String.
-/

/-- Pixel data type of a raster band, mirroring the string-keyed dtype
branching of the sources (uint8 / uint16 / float / anything else). -/
inductive PixelType where
  | uint8
  | uint16
  | float
  | other
deriving DecidableEq

/-- One 16-bit RGB color sample; channels are Nat values intended in 0..65535. -/
structure ColorRGB where
  r : ℕ
  g : ℕ
  b : ℕ
deriving DecidableEq

/-- A raster dataset as rasterio exposes it: dimensions, the affine transform
coefficients (pixelW = transform[0], pixelH = transform[4] which is negative
for north-up rasters, originX = transform[2], originY = transform[5]),
band count, dtype, and the band values (band index, row, col). -/
structure Raster where
  width : ℕ
  height : ℕ
  pixelW : ℚ
  pixelH : ℚ
  originX : ℚ
  originY : ℚ
  bandCount : ℕ
  dtype : PixelType
  band : ℕ → ℕ → ℕ → ℚ

/-- LAS point data as laspy exposes it: one array per attribute
(las_data.x, las_data.intensity, ...), plus the optional header CRS. -/
structure LasData where
  xs : List ℚ
  ys : List ℚ
  zs : List ℚ
  intensity : List ℕ
  returnNumber : List ℕ
  numberOfReturns : List ℕ
  classification : List ℕ
  scanAngleRank : List ℕ
  userData : List ℕ
  pointSourceId : List ℕ
  headerCrs : Option String

/-- Output point cloud: the attribute arrays written by
save_colorized_point_cloud, including the three color channels. -/
structure TrimmedCloud where
  xs : List ℚ
  ys : List ℚ
  zs : List ℚ
  intensity : List ℕ
  returnNumber : List ℕ
  numberOfReturns : List ℕ
  classification : List ℕ
  scanAngleRank : List ℕ
  userData : List ℕ
  pointSourceId : List ℕ
  red : List ℕ
  green : List ℕ
  blue : List ℕ
deriving DecidableEq

/-- Number of true entries of a boolean mask (np.sum of a boolean array). -/
def countTrue (mask : List Bool) : ℕ := (mask.filter (fun b => b)).length

/-- Boolean-mask selection, the semantics of numpy array[mask]: keep the
entries at true positions, in order. -/
def maskSel {α : Type} (xs : List α) (mask : List Bool) : List α :=
  ((xs.zip mask).filter (fun p => p.2)).map (fun p => p.1)

/-- numpy astype(np.uint16) applied to an exact rational: truncate toward
zero and wrap modulo 2^16.  (For the nonnegative values arising in the
sources, truncation toward zero coincides with the floor used here.) -/
def castU16 (q : ℚ) : ℕ := (⌊q⌋ % 65536).toNat

/-- np.clip(q, lo, hi). -/
def ratClamp (q lo hi : ℚ) : ℚ := max lo (min q hi)

/-- Fallback CRS guess of transform_point_cloud_to_ortho_crs (archive,
lines 243-269): three ordered range rules over the coordinate extrema,
raising when none matches.  The Web Mercator rule is checked first, then
the geographic rule, then the UTM regional default; note every rule tests
the minima only (plus y_max in the Web Mercator rule), never x_max. -/
def crs_range_heuristic (xmin xmax ymin ymax : ℚ) : Except String String :=
  if xmin < -1000000 ∧ |xmin| < 20037508 ∧ 1000000 < ymin ∧ ymax < 20037508 then
    Except.ok "EPSG:3857"
  else if -180 ≤ xmin ∧ xmin ≤ 180 ∧ -90 ≤ ymin ∧ ymin ≤ 90 then
    Except.ok "EPSG:4326"
  else if 100000 < xmin ∧ xmin < 900000 ∧ 1000000 < ymin ∧ ymin < 10000000 then
    Except.ok "EPSG:26913"
  else
    Except.error "Cannot determine point cloud CRS"

/-- Modelled from the spec wording of claim C2 (spec section 4.1): the range
heuristics as the claim states them, evaluated in the spec order over the
whole coordinate ranges — geographic-looking ranges (all of xmin, xmax in
[-180,180] and ymin, ymax in [-90,90]) first, then the large-magnitude
global projected system, then the regional default; no match fails. -/
def specResolveCrs (xmin xmax ymin ymax : ℚ) : Except String String :=
  if |xmin| ≤ 180 ∧ |xmax| ≤ 180 ∧ |ymin| ≤ 90 ∧ |ymax| ≤ 90 then
    Except.ok "EPSG:4326"
  else if xmin < -1000000 ∧ |xmin| < 20037508 ∧ |xmax| < 20037508 ∧
      1000000 < ymin ∧ ymax < 20037508 then
    Except.ok "EPSG:3857"
  else if 100000 < xmin ∧ xmax < 900000 ∧ 1000000 < ymin ∧ ymax < 10000000 then
    Except.ok "EPSG:26913"
  else
    Except.error "Cannot determine point cloud CRS"

/-- The same three guards as crs_range_heuristic (minima-based, exactly the
source predicates) but evaluated in the priority order stated by the spec:
geographic first, then Web Mercator, then the regional default. -/
def crs_minima_spec_order (xmin xmax ymin ymax : ℚ) : Except String String :=
  if -180 ≤ xmin ∧ xmin ≤ 180 ∧ -90 ≤ ymin ∧ ymin ≤ 90 then
    Except.ok "EPSG:4326"
  else if xmin < -1000000 ∧ |xmin| < 20037508 ∧ 1000000 < ymin ∧ ymax < 20037508 then
    Except.ok "EPSG:3857"
  else if 100000 < xmin ∧ xmin < 900000 ∧ 1000000 < ymin ∧ ymin < 10000000 then
    Except.ok "EPSG:26913"
  else
    Except.error "Cannot determine point cloud CRS"

/-- identify_point_cloud_crs of src/scripts/process_point_cloud.py: the header
CRS when present, otherwise the assumed regional default EPSG:2232 — this
resolver never fails. -/
def identify_point_cloud_crs (headerCrs : Option String) : String :=
  match headerCrs with
  | some s => s
  | none => "EPSG:2232"

/-- Raster bounds as rasterio derives them from transform and dimensions:
left edge. -/
def bLeft (r : Raster) : ℚ := r.originX

/-- Raster bounds: right edge. -/
def bRight (r : Raster) : ℚ := r.originX + r.pixelW * r.width

/-- Raster bounds: top edge. -/
def bTop (r : Raster) : ℚ := r.originY

/-- Raster bounds: bottom edge. -/
def bBottom (r : Raster) : ℚ := r.originY + r.pixelH * r.height

/-- Expected pixel width computed from bounds and dimensions
(archive colorize_point_cloud, line 620). -/
def expectedPixelW (r : Raster) : ℚ := (bRight r - bLeft r) / r.width

/-- Expected pixel height computed from bounds and dimensions
(archive colorize_point_cloud, line 623). -/
def expectedPixelH (r : Raster) : ℚ := (bTop r - bBottom r) / r.height

/-- Transform self-consistency check (archive colorize_point_cloud,
lines 634-644): more than 10 percent disagreement between the declared and
the bounds-derived pixel sizes. -/
def transformIssueB (r : Raster) : Bool :=
  decide (expectedPixelW r * (1/10) < |r.pixelW - expectedPixelW r|) ||
  decide (expectedPixelH r * (1/10) < |(|r.pixelH|) - expectedPixelH r|)

/-- Affine coefficient a actually used for the pixel mapping: the declared
one, or on a detected issue the one rebuilt by from_bounds. -/
def usedPixA (r : Raster) : ℚ :=
  if transformIssueB r then expectedPixelW r else r.pixelW

/-- Affine coefficient e actually used for the pixel mapping. -/
def usedPixE (r : Raster) : ℚ :=
  if transformIssueB r then -(expectedPixelH r) else r.pixelH

/-- Affine coefficient c actually used for the pixel mapping. -/
def usedPixC (r : Raster) : ℚ :=
  if transformIssueB r then bLeft r else r.originX

/-- Affine coefficient f actually used for the pixel mapping. -/
def usedPixF (r : Raster) : ℚ :=
  if transformIssueB r then bTop r else r.originY

/-- rasterio.transform.rowcol column: floor of the inverse affine transform. -/
def pixelColAt (r : Raster) (x : ℚ) : ℤ := ⌊(x - usedPixC r) / usedPixA r⌋

/-- rasterio.transform.rowcol row: floor of the inverse affine transform. -/
def pixelRowAt (r : Raster) (y : ℚ) : ℤ := ⌊(y - usedPixF r) / usedPixE r⌋

/-- Validity of one transformed coordinate pair: its pixel indices fall
inside the raster (archive colorize_point_cloud, lines 693-698). -/
def validAtCoord (r : Raster) (x y : ℚ) : Bool :=
  decide (0 ≤ pixelColAt r x ∧ pixelColAt r x < (r.width : ℤ) ∧
    0 ≤ pixelRowAt r y ∧ pixelRowAt r y < (r.height : ℤ))

/-- Coordinates of the point cloud after the (external, elementwise) CRS
transformer T has been applied to every point. -/
def transformPC (T : ℚ × ℚ → ℚ × ℚ) (las : LasData) : List (ℚ × ℚ) :=
  (las.xs.zip las.ys).map T

/-- The per-point validity mask over transformed coordinates. -/
def validMaskList (r : Raster) (coords : List (ℚ × ℚ)) : List Bool :=
  coords.map (fun p => validAtCoord r p.1 p.2)

/-- Number of valid points for a given transformer, cloud and raster. -/
def numValid (T : ℚ × ℚ → ℚ × ℚ) (las : LasData) (r : Raster) : ℕ :=
  countTrue (validMaskList r (transformPC T las))

/-- Total point count, len(las_data.points). -/
def totalPoints (las : LasData) : ℕ := las.xs.length

/-- The archive correction trigger (lines 708-712): zero valid points, or a
coverage below the 10 percent threshold. -/
def lowCoverage (T : ℚ × ℚ → ℚ × ℚ) (las : LasData) (r : Raster) : Bool :=
  decide (numValid T las r = 0) ||
  decide ((numValid T las r : ℚ) / (totalPoints las : ℚ) < 1/10)

/-- Per-channel color scaling of the archive colorize_point_cloud
(lines 816-847), keyed on the raster dtype: uint8 times 257, uint16 direct,
float times 65535 with a bare uint16 cast (no clip), anything else a direct
cast. -/
def scaleArchive (dt : PixelType) (v : ℚ) : ℕ :=
  match dt with
  | PixelType.uint8 => castU16 (v * 257)
  | PixelType.uint16 => castU16 v
  | PixelType.float => castU16 (v * 65535)
  | PixelType.other => castU16 v

/-- The color the archive assigns to one valid point: sample bands 1..3
(or replicate band 1 when single-band) at the rowcol pixel of the point,
then scale each channel by dtype. -/
def archiveColorAt (r : Raster) (x y : ℚ) : ColorRGB :=
  let col := (pixelColAt r x).toNat
  let row := (pixelRowAt r y).toNat
  if 3 ≤ r.bandCount then
    ⟨scaleArchive r.dtype (r.band 1 row col),
     scaleArchive r.dtype (r.band 2 row col),
     scaleArchive r.dtype (r.band 3 row col)⟩
  else
    let g := scaleArchive r.dtype (r.band 1 row col)
    ⟨g, g, g⟩

/-- One pass of the archive colorization after the coverage check: the band
count is validated (at least 3, or exactly 1, anything else raises), then
every valid point gets its sampled scaled color and every invalid point
keeps (0,0,0).  Returns the color array and the validity mask. -/
def colorize_once (T : ℚ × ℚ → ℚ × ℚ) (las : LasData) (r : Raster) :
    Except String (List ColorRGB × List Bool) :=
  let coords := transformPC T las
  let mask := validMaskList r coords
  if 3 ≤ r.bandCount ∨ r.bandCount = 1 then
    Except.ok
      ((coords.zip mask).map
        (fun pb => if pb.2 then archiveColorAt r pb.1.1 pb.1.2 else ⟨0, 0, 0⟩),
       mask)
  else
    Except.error "Unsupported number of bands"

/-- The archive colorize_point_cloud correction loop (lines 708-756).  On
low coverage it attempts to download a corrected orthophoto and, on
success, recursively re-runs the whole colorization against it; the list
argument is the sequence of replacement rasters the acquisition service
will successively yield (empty head position means the download raises).
On a failed download it proceeds with the current raster unless no point
was valid at all, in which case it raises. -/
def colorize_point_cloud (T : ℚ × ℚ → ℚ × ℚ) (las : LasData) :
    Raster → List Raster → Except String (List ColorRGB × List Bool)
  | r, [] =>
    if lowCoverage T las r then
      if numValid T las r = 0 then
        Except.error "No points within orthophoto bounds and auto-correction failed"
      else colorize_once T las r
    else colorize_once T las r
  | r, rk :: rest =>
    if lowCoverage T las r then colorize_point_cloud T las rk rest
    else colorize_once T las r

/-- How many corrected-raster retries an execution of colorize_point_cloud
performs: one per recursive call, i.e. one per successful replacement
download taken while coverage stays low. -/
def correctionRetries (T : ℚ × ℚ → ℚ × ℚ) (las : LasData) :
    Raster → List Raster → ℕ
  | _, [] => 0
  | r, rk :: rest =>
    if lowCoverage T las r then correctionRetries T las rk rest + 1 else 0

/-- save_colorized_point_cloud of the archive (lines 903-977): every
attribute array and the three color columns are filtered by the validity
mask, so only points inside the orthophoto are kept. -/
def save_colorized_point_cloud (las : LasData) (colors : List ColorRGB)
    (mask : List Bool) : TrimmedCloud :=
  { xs := maskSel las.xs mask
    ys := maskSel las.ys mask
    zs := maskSel las.zs mask
    intensity := maskSel las.intensity mask
    returnNumber := maskSel las.returnNumber mask
    numberOfReturns := maskSel las.numberOfReturns mask
    classification := maskSel las.classification mask
    scanAngleRank := maskSel las.scanAngleRank mask
    userData := maskSel las.userData mask
    pointSourceId := maskSel las.pointSourceId mask
    red := maskSel (colors.map ColorRGB.r) mask
    green := maskSel (colors.map ColorRGB.g) mask
    blue := maskSel (colors.map ColorRGB.b) mask }

/-- save_colorized_point_cloud of src/scripts/process_point_cloud.py
(lines 327-342): copies every input point unchanged and assigns the color
columns for all of them; no mask is applied, nothing is trimmed. -/
def save_colorized_scripts (las : LasData) (colors : List ColorRGB) :
    TrimmedCloud :=
  { xs := las.xs
    ys := las.ys
    zs := las.zs
    intensity := las.intensity
    returnNumber := las.returnNumber
    numberOfReturns := las.numberOfReturns
    classification := las.classification
    scanAngleRank := las.scanAngleRank
    userData := las.userData
    pointSourceId := las.pointSourceId
    red := colors.map ColorRGB.r
    green := colors.map ColorRGB.g
    blue := colors.map ColorRGB.b }

/-- The full archive run for one invocation: colorize (with the correction
loop) and save the trimmed result. -/
def runColorization (T : ℚ × ℚ → ℚ × ℚ) (las : LasData) (r : Raster)
    (oracle : List Raster) : Except String TrimmedCloud :=
  (colorize_point_cloud T las r oracle).map
    (fun cm => save_colorized_point_cloud las cm.1 cm.2)

/-- Colorized-point count of create_summary_report (archive, line 1512):
among the mask-selected colors, those with any channel above zero. -/
def colorizedCount (colors : List ColorRGB) (mask : List Bool) : ℕ :=
  ((maskSel colors mask).filter
    (fun c => decide (0 < c.r) || decide (0 < c.g) || decide (0 < c.b))).length

/-- Per-channel scaling of extract_colors_from_image
(src/scripts/process_point_cloud.py, lines 267-319) before the final clip
and cast; m is the maximum sampled value, used only by the heuristic branch
for unknown dtypes. -/
def scriptsScale (dt : PixelType) (m v : ℚ) : ℚ :=
  match dt with
  | PixelType.uint8 => v / 255 * 65535
  | PixelType.uint16 => v
  | PixelType.float => v * 65535
  | PixelType.other => if 0 < m ∧ m < 256 then v / 255 * 65535 else v

/-- Final per-channel value of extract_colors_from_image: scale, then
np.clip(.., 0, 65535), then astype(np.uint16). -/
def scriptsChannel (dt : PixelType) (m v : ℚ) : ℕ :=
  castU16 (ratClamp (scriptsScale dt m v) 0 65535)

/-- Modelled from the spec wording of claims C4/C5 (spec section 4.6): a
floating-point channel is the pixel value times 65535 clamped into
[0, 65535] (integer part taken by the subsequent cast); never wraps. -/
def specFloatChannel (q : ℚ) : ℕ := (⌊ratClamp (q * 65535) 0 65535⌋).toNat

/-- Maximum sampled channel value over the valid points (the current_max_val
of the unknown-dtype heuristic in extract_colors_from_image). -/
def scriptsMaxSample (r : Raster) (pix : List ((ℤ × ℤ) × Bool)) : ℚ :=
  pix.foldl
    (fun acc pb =>
      if pb.2 then
        if 3 ≤ r.bandCount then
          max acc (max (r.band 1 pb.1.2.toNat pb.1.1.toNat)
            (max (r.band 2 pb.1.2.toNat pb.1.1.toNat)
              (r.band 3 pb.1.2.toNat pb.1.1.toNat)))
        else max acc (r.band 1 pb.1.2.toNat pb.1.1.toNat)
      else acc)
    0

/-- The color the script assigns to one valid point at pixel (col, row). -/
def scriptsColorAt (r : Raster) (m : ℚ) (col row : ℤ) : ColorRGB :=
  if 3 ≤ r.bandCount then
    ⟨scriptsChannel r.dtype m (r.band 1 row.toNat col.toNat),
     scriptsChannel r.dtype m (r.band 2 row.toNat col.toNat),
     scriptsChannel r.dtype m (r.band 3 row.toNat col.toNat)⟩
  else
    let g := scriptsChannel r.dtype m (r.band 1 row.toNat col.toNat)
    ⟨g, g, g⟩

/-- extract_colors_from_image of src/scripts/process_point_cloud.py
(lines 227-324): with no valid point the zero array is returned early; with
a band count other than 1 or at least 3 the zero array is returned as well
(only a message is printed, no error is raised); otherwise every valid
point is sampled, scaled, clipped and cast, and invalid points stay
(0,0,0). -/
def extract_colors_from_image (r : Raster) (px py : List ℤ)
    (mask : List Bool) : List ColorRGB :=
  let pix := (px.zip py).zip mask
  if countTrue mask = 0 then
    List.replicate px.length ⟨0, 0, 0⟩
  else if 3 ≤ r.bandCount ∨ r.bandCount = 1 then
    let m := scriptsMaxSample r pix
    pix.map (fun pb => if pb.2 then scriptsColorAt r m pb.1.1 pb.1.2 else ⟨0, 0, 0⟩)
  else
    List.replicate px.length ⟨0, 0, 0⟩

/-- Batch size of the archive transform_point_cloud_to_ortho_crs (line 284). -/
def batchSize : ℕ := 500000

/-- One whole-array transformer call, elementwise over the coordinate pairs,
aborting on the first failure (the semantics of transformer.transform on
full arrays). -/
def transformAll (t : ℚ × ℚ → Except String (ℚ × ℚ)) :
    List (ℚ × ℚ) → Except String (List (ℚ × ℚ))
  | [] => Except.ok []
  | p :: ps =>
    match t p with
    | Except.error e => Except.error e
    | Except.ok q =>
      match transformAll t ps with
      | Except.error e => Except.error e
      | Except.ok qs => Except.ok (q :: qs)

/-- The batched loop of transform_point_cloud_to_ortho_crs (lines 294-303):
slices of batchSize points are transformed sequentially and written back in
order; the first failing batch aborts everything. -/
def transform_batched (t : ℚ × ℚ → Except String (ℚ × ℚ)) :
    List (ℚ × ℚ) → Except String (List (ℚ × ℚ))
  | [] => Except.ok []
  | p :: ps =>
    match transformAll t ((p :: ps).take batchSize) with
    | Except.error e => Except.error e
    | Except.ok first =>
      match transform_batched t ((p :: ps).drop batchSize) with
      | Except.error e => Except.error e
      | Except.ok rest => Except.ok (first ++ rest)
  termination_by l => l.length
  decreasing_by
    simp only [List.length_drop, List.length_cons, batchSize]
    omega

/-- transform_point_cloud_to_ortho_crs outer error handling (lines 273-309):
any failure is re-raised as a chained coordinate-transformation failure. -/
def transform_point_cloud_to_ortho_crs (t : ℚ × ℚ → Except String (ℚ × ℚ))
    (coords : List (ℚ × ℚ)) : Except String (List (ℚ × ℚ)) :=
  match transform_batched t coords with
  | Except.ok res => Except.ok res
  | Except.error e => Except.error ("Coordinate transformation failed: " ++ e)

/-- Minimum of a coordinate array (np.min); 0 on the empty array, which the
sources never hit. -/
def minL : List ℚ → ℚ
  | [] => 0
  | x :: xs => xs.foldl min x

/-- Maximum of a coordinate array (np.max). -/
def maxL : List ℚ → ℚ
  | [] => 0
  | x :: xs => xs.foldl max x

/-- Hard-coded target bounds of the bounds-to-bounds fallback in
transform_coordinates (src/scripts/process_point_cloud.py, lines 112-113). -/
def tgtMinX : ℚ := 476216.9806

/-- Fallback target bound, east edge. -/
def tgtMaxX : ℚ := 477833.0806

/-- Fallback target bound, south edge. -/
def tgtMinY : ℚ := 4424864.8564

/-- Fallback target bound, north edge. -/
def tgtMaxY : ℚ := 4426481.1064

/-- X scale of the fallback: guarded against a degenerate axis
(lines 115-119), in which case it is 1. -/
def fallback_x_scale (xs : List ℚ) : ℚ :=
  if maxL xs - minL xs ≠ 0 then (tgtMaxX - tgtMinX) / (maxL xs - minL xs) else 1

/-- Y scale of the fallback, same guard (lines 120-124). -/
def fallback_y_scale (ys : List ℚ) : ℚ :=
  if maxL ys - minL ys ≠ 0 then (tgtMaxY - tgtMinY) / (maxL ys - minL ys) else 1

/-- The bounds-to-bounds fallback scaling of transform_coordinates
(lines 100-128): every point is shifted and scaled into the hard-coded
target bounds; the result pairs transformed x with transformed y, one pair
per input point. -/
def transform_coordinates_fallback (xs ys : List ℚ) : List (ℚ × ℚ) :=
  (xs.zip ys).map
    (fun p => (tgtMinX + (p.1 - minL xs) * fallback_x_scale xs,
               tgtMinY + (p.2 - minL ys) * fallback_y_scale ys))

/-- Identity CRS transformer, used by concrete witnesses. -/
def idT : ℚ × ℚ → ℚ × ℚ := fun p => p

/-- An always-succeeding transformer for concrete witnesses. -/
def tOkId : ℚ × ℚ → Except String (ℚ × ℚ) := fun p => Except.ok p

/-- An always-failing transformer for concrete witnesses. -/
def tFail : ℚ × ℚ → Except String (ℚ × ℚ) := fun _ => Except.error "proj error"

/-- The LAS length invariant: every attribute array has the point count. -/
def lasLens (las : LasData) (n : ℕ) : Prop :=
  las.xs.length = n ∧ las.ys.length = n ∧ las.zs.length = n ∧
  las.intensity.length = n ∧ las.returnNumber.length = n ∧
  las.numberOfReturns.length = n ∧ las.classification.length = n ∧
  las.scanAngleRank.length = n ∧ las.userData.length = n ∧
  las.pointSourceId.length = n

/-- The rows of a LAS file: the positional pairing of all its attribute
arrays, point by point. -/
def rowsOf (las : LasData) :
    List (ℚ × ℚ × ℚ × ℕ × ℕ × ℕ × ℕ × ℕ × ℕ × ℕ) :=
  las.xs.zip (las.ys.zip (las.zs.zip (las.intensity.zip (las.returnNumber.zip
    (las.numberOfReturns.zip (las.classification.zip (las.scanAngleRank.zip
      (las.userData.zip las.pointSourceId))))))))

/-- The rows of an output cloud, non-color attributes only. -/
def outRows (t : TrimmedCloud) :
    List (ℚ × ℚ × ℚ × ℕ × ℕ × ℕ × ℕ × ℕ × ℕ × ℕ) :=
  t.xs.zip (t.ys.zip (t.zs.zip (t.intensity.zip (t.returnNumber.zip
    (t.numberOfReturns.zip (t.classification.zip (t.scanAngleRank.zip
      (t.userData.zip t.pointSourceId))))))))

/-- The color rows of an output cloud. -/
def colorRows (t : TrimmedCloud) : List (ℕ × ℕ × ℕ) :=
  t.red.zip (t.green.zip t.blue)

/-- Witness raster: one pixel, three uint8 bands of value 200, covering the
unit square with corner (0,0)-(1,1). -/
def rU8 : Raster :=
  ⟨1, 1, 1, -1, 0, 1, 3, PixelType.uint8, fun _ _ _ => 200⟩

/-- Witness raster: like rU8 but shifted 100 units east, so it covers no
witness point. -/
def rFar : Raster :=
  ⟨1, 1, 1, -1, 100, 1, 3, PixelType.uint8, fun _ _ _ => 0⟩

/-- Witness raster with two bands, an unsupported count. -/
def rBand2 : Raster :=
  ⟨1, 1, 1, -1, 0, 1, 2, PixelType.uint8, fun _ _ _ => 7⟩

/-- Witness raster with a single uint16 band of value 30000. -/
def rGray : Raster :=
  ⟨1, 1, 1, -1, 0, 1, 1, PixelType.uint16, fun _ _ _ => 30000⟩

/-- Witness raster with three float bands of constant value 2, outside the
nominal 0.0-1.0 domain. -/
def rFloat2 : Raster :=
  ⟨1, 1, 1, -1, 0, 1, 3, PixelType.float, fun _ _ _ => 2⟩

/-- Witness cloud with a single point at (0, 1/2). -/
def las1 : LasData :=
  ⟨[0], [1/2], [5], [10], [1], [1], [2], [3], [4], [7], none⟩

/-- Witness cloud with two points. -/
def las2 : LasData :=
  ⟨[0, 1], [1/2, 5], [5, 6], [10, 20], [1, 2], [1, 1], [2, 3], [3, 1],
   [4, 0], [7, 8], none⟩

/-- Witness color array for las2. -/
def cols2 : List ColorRGB := [⟨1, 2, 3⟩, ⟨4, 5, 6⟩]

/-
  Helper lemmas (shared; none of these is a claim theorem).
-/

/-- Casting a natural below 2^16 through the uint16 cast is the identity. -/
theorem castU16_natCast (n : ℕ) (h : n < 65536) : castU16 (n : ℚ) = n := by
  unfold castU16
  rw [Int.floor_natCast,
    Int.emod_eq_of_lt (by exact_mod_cast Nat.zero_le n) (by exact_mod_cast h)]
  simp

/-- Mask selection on a cons. -/
theorem maskSel_cons {α : Type} (x : α) (xs : List α) (b : Bool) (ms : List Bool) :
    maskSel (x :: xs) (b :: ms) = if b then x :: maskSel xs ms else maskSel xs ms := by
  cases b <;> simp [maskSel]

/-- Mask selection on nil masks. -/
theorem maskSel_nil {α : Type} (xs : List α) : maskSel xs [] = [] := by
  simp [maskSel]

/-- countTrue on a cons. -/
theorem countTrue_cons (b : Bool) (ms : List Bool) :
    countTrue (b :: ms) = if b then countTrue ms + 1 else countTrue ms := by
  cases b <;> simp [countTrue]

/-- countTrue never exceeds the mask length. -/
theorem countTrue_le_length (mask : List Bool) : countTrue mask ≤ mask.length :=
  List.length_filter_le _ mask

/-- With matching lengths, mask selection keeps exactly countTrue entries. -/
theorem maskSel_length {α : Type} (xs : List α) (mask : List Bool)
    (h : xs.length = mask.length) :
    (maskSel xs mask).length = countTrue mask := by
  induction mask generalizing xs with
  | nil => cases xs with
    | nil => rfl
    | cons a as => simp at h
  | cons b ms ih =>
    cases xs with
    | nil => simp at h
    | cons x xs' =>
      simp only [List.length_cons, Nat.succ_inj] at h
      rw [maskSel_cons, countTrue_cons]
      cases b with
      | true => simp [ih xs' h]
      | false => simp [ih xs' h]

/-- Mask selection commutes with positional pairing: selecting the same mask
from two parallel arrays and pairing afterwards equals pairing first and
selecting once. -/
theorem maskSel_zip {α β : Type} (as : List α) (bs : List β) (mask : List Bool)
    (ha : as.length = mask.length) (hb : bs.length = mask.length) :
    maskSel (as.zip bs) mask = (maskSel as mask).zip (maskSel bs mask) := by
  induction mask generalizing as bs with
  | nil => simp [maskSel_nil]
  | cons b ms ih =>
    cases as with
    | nil => simp at ha
    | cons a as' =>
      cases bs with
      | nil => simp at hb
      | cons c bs' =>
        simp only [List.length_cons, Nat.succ_inj] at ha hb
        rw [List.zip_cons_cons, maskSel_cons, maskSel_cons, maskSel_cons]
        cases b with
        | true => simp [ih as' bs' ha hb]
        | false => simp [ih as' bs' ha hb]

/-
  Claim theorems.
-/

/-- Claim C10: in the bounds-to-bounds fallback of transform_coordinates the
computation is total — the result has one pair per input point, and a
degenerate axis (max equal to min) gets scale factor 1 instead of a
division. -/
theorem fallback_scaling_total (xs ys : List ℚ) (hxy : ys.length = xs.length) :
    (transform_coordinates_fallback xs ys).length = xs.length ∧
    (maxL xs = minL xs → fallback_x_scale xs = 1) ∧
    (maxL ys = minL ys → fallback_y_scale ys = 1) := by
  refine ⟨?_, ?_, ?_⟩
  · simp [transform_coordinates_fallback, hxy]
  · intro h
    simp [fallback_x_scale, h]
  · intro h
    simp [fallback_y_scale, h]

/-- Witness for C10 at a degenerate x axis. -/
theorem fallback_scaling_total_witness :
    (transform_coordinates_fallback [1, 1] [2, 3]).length = ([1, 1] : List ℚ).length ∧
    fallback_x_scale [1, 1] = 1 := by
  have h := fallback_scaling_total [1, 1] [2, 3] (by decide)
  exact ⟨h.1, h.2.1 (by decide)⟩

/-- Counterexample to claim C2: on a cloud with minima in geographic range
but maxima far outside it (xmin 0, xmax 1000000), the source heuristic
returns the geographic CRS although no rule of the claim matches (the
spec-following resolver fails); and the script resolver returns the
regional default instead of failing when the header has no CRS. -/
theorem crs_heuristic_cex :
    crs_range_heuristic 0 1000000 0 1000000 = Except.ok "EPSG:4326" ∧
    specResolveCrs 0 1000000 0 1000000 =
      Except.error "Cannot determine point cloud CRS" ∧
    identify_point_cloud_crs none = "EPSG:2232" := by
  refine ⟨?_, ?_, rfl⟩
  · norm_num [crs_range_heuristic]
  · norm_num [specResolveCrs]

/-- Claim C2 as amended: the archive range heuristics test the coordinate
minima only (plus y_max in the Web Mercator rule); because the three guards
are pairwise disjoint, the resolver is extensionally equal to evaluating
those same guards in the priority order the spec states (geographic first,
then the global projected system, then the regional default), and when no
guard matches it fails.  The script resolver, by contrast, never fails: it
returns the regional default EPSG:2232 whenever the header lacks a CRS. -/
theorem crs_heuristic_amended (a b c d : ℚ) :
    crs_range_heuristic a b c d = crs_minima_spec_order a b c d ∧
    identify_point_cloud_crs none = "EPSG:2232" := by
  constructor
  · by_cases hM : a < -1000000 ∧ |a| < 20037508 ∧ 1000000 < c ∧ d < 20037508
    · have hG : ¬ (-180 ≤ a ∧ a ≤ 180 ∧ -90 ≤ c ∧ c ≤ 90) := by
        intro hg
        linarith [hM.1, hg.1]
      simp [crs_range_heuristic, crs_minima_spec_order, hM, hG]
    · simp [crs_range_heuristic, crs_minima_spec_order, hM]
  · rfl

/-- Counterexample to claim C1: with a point cloud missing both the original
raster and the first replacement, and the acquisition service yielding two
replacements, the archive correction recursion performs two corrected-raster
retries, not at most one. -/
theorem correction_retry_twice :
    correctionRetries idT las1 rFar [rFar, rU8] = 2 := by
  have h1 : lowCoverage idT las1 rFar = true := by
    norm_num [lowCoverage, numValid, countTrue, validMaskList, transformPC,
      las1, rFar, idT, validAtCoord, pixelColAt, pixelRowAt, usedPixA,
      usedPixC, usedPixE, usedPixF, transformIssueB, expectedPixelW,
      expectedPixelH, bLeft, bRight, bTop, bBottom]
  simp [correctionRetries, h1]

/-- Claim C1 as amended: the correction is implemented by self-recursion
with no depth bound of one — each low-coverage attempt whose replacement
download succeeds re-runs everything against the replacement — so the number
of corrected-raster retries is bounded only by the number of replacement
rasters the acquisition service successfully yields. -/
theorem correction_retries_le_downloads (T : ℚ × ℚ → ℚ × ℚ) (las : LasData)
    (r : Raster) (oracle : List Raster) :
    correctionRetries T las r oracle ≤ oracle.length := by
  induction oracle generalizing r with
  | nil => simp [correctionRetries]
  | cons rk rest ih =>
    simp only [correctionRetries, List.length_cons]
    split
    · exact Nat.succ_le_succ (ih rk)
    · omega

/-- Claim C4: 8-bit band values are rescaled by the exact factor 257 and
16-bit band values pass through unchanged, in the archive scaling, in the
script channel pipeline (where v / 255 * 65535 equals v * 257 exactly), and
end to end through the archive per-point sampler. -/
theorem normalization_uint8_uint16 (rr : Raster) (x y m : ℚ) (v w : ℕ)
    (hv : v ≤ 255) (hw : w ≤ 65535) (hd : rr.dtype = PixelType.uint8)
    (hb : 3 ≤ rr.bandCount)
    (hval : rr.band 1 (pixelRowAt rr y).toNat (pixelColAt rr x).toNat = (v : ℚ)) :
    scaleArchive PixelType.uint8 (v : ℚ) = v * 257 ∧
    scaleArchive PixelType.uint16 (w : ℚ) = w ∧
    scriptsChannel PixelType.uint8 m (v : ℚ) = v * 257 ∧
    scriptsChannel PixelType.uint16 m (w : ℚ) = w ∧
    (archiveColorAt rr x y).r = v * 257 := by
  have e8 : scaleArchive PixelType.uint8 (v : ℚ) = v * 257 := by
    show castU16 ((v : ℚ) * 257) = v * 257
    have hc : ((v : ℚ) * 257) = ((v * 257 : ℕ) : ℚ) := by push_cast; ring
    rw [hc]
    exact castU16_natCast _ (by omega)
  have e16 : scaleArchive PixelType.uint16 (w : ℚ) = w := by
    show castU16 ((w : ℚ)) = w
    exact castU16_natCast _ (by omega)
  have s8 : scriptsChannel PixelType.uint8 m (v : ℚ) = v * 257 := by
    show castU16 (ratClamp ((v : ℚ) / 255 * 65535) 0 65535) = v * 257
    have h1 : (v : ℚ) / 255 * 65535 = ((v * 257 : ℕ) : ℚ) := by
      push_cast
      field_simp
      ring
    have hle : ((v * 257 : ℕ) : ℚ) ≤ 65535 := by
      exact_mod_cast (by omega : v * 257 ≤ 65535)
    have h2 : ratClamp (((v * 257 : ℕ) : ℚ)) 0 65535 = ((v * 257 : ℕ) : ℚ) := by
      unfold ratClamp
      rw [min_eq_left hle, max_eq_right (by positivity)]
    rw [h1, h2]
    exact castU16_natCast _ (by omega)
  have s16 : scriptsChannel PixelType.uint16 m (w : ℚ) = w := by
    show castU16 (ratClamp ((w : ℚ)) 0 65535) = w
    have hle : ((w : ℕ) : ℚ) ≤ 65535 := by exact_mod_cast hw
    have h2 : ratClamp ((w : ℚ)) 0 65535 = ((w : ℕ) : ℚ) := by
      unfold ratClamp
      rw [min_eq_left hle, max_eq_right (by positivity)]
    rw [h2]
    exact castU16_natCast _ (by omega)
  refine ⟨e8, e16, s8, s16, ?_⟩
  simp only [archiveColorAt]
  rw [if_pos hb]
  show scaleArchive rr.dtype
    (rr.band 1 (pixelRowAt rr y).toNat (pixelColAt rr x).toNat) = v * 257
  rw [hd, hval]
  exact e8

/-- Witness for C4 on the concrete uint8 raster rU8 (band value 200) and a
16-bit value 1000. -/
theorem normalization_uint8_uint16_witness :
    scaleArchive PixelType.uint8 ((200 : ℕ) : ℚ) = 200 * 257 ∧
    scaleArchive PixelType.uint16 ((1000 : ℕ) : ℚ) = 1000 ∧
    (archiveColorAt rU8 0 (1/2)).r = 200 * 257 := by
  have h := normalization_uint8_uint16 rU8 0 (1/2) 0 200 1000
    (by norm_num) (by norm_num) rfl (by norm_num [rU8]) (by norm_num [rU8])
  exact ⟨h.1, h.2.1, h.2.2.2.2⟩

/-- Counterexample to claim C5: on a float raster with pixel value 2 the
archive implementation stores 65534 — the cast wraps 2 * 65535 = 131070
modulo 2^16 — while the claim (clamping into [0, 65535]) requires 65535. -/
theorem archive_float_wraps :
    archiveColorAt rFloat2 0 (1/2) = ⟨65534, 65534, 65534⟩ ∧
    specFloatChannel 2 = 65535 := by
  constructor
  · norm_num [archiveColorAt, rFloat2, scaleArchive, castU16, pixelColAt,
      pixelRowAt, usedPixA, usedPixC, usedPixE, usedPixF, transformIssueB,
      expectedPixelW, expectedPixelH, bLeft, bRight, bTop, bBottom]
    decide
  · norm_num [specFloatChannel, ratClamp]
    decide

/-- Claim C5 as amended: the script implementation multiplies float pixels
by 65535, clamps into [0, 65535] before the cast (so the stored value is
the floor of the clamp and never exceeds 65535 — no wraparound), while the
archive implementation applies no clamp and agrees with the claim only on
the nominal domain 0 ≤ v ≤ 1; outside it the archive cast wraps modulo
2^16 (see the counterexample). -/
theorem float_normalization_amended (m q v : ℚ) :
    scriptsChannel PixelType.float m q = (⌊ratClamp (q * 65535) 0 65535⌋).toNat ∧
    scriptsChannel PixelType.float m q ≤ 65535 ∧
    (0 ≤ v → v ≤ 1 → scaleArchive PixelType.float v = (⌊v * 65535⌋).toNat) := by
  have hcl0 : (0 : ℚ) ≤ ratClamp (q * 65535) 0 65535 := le_max_left _ _
  have hcl1 : ratClamp (q * 65535) 0 65535 ≤ 65535 :=
    max_le (by norm_num) (min_le_right _ _)
  have hfl : (⌊(65535 : ℚ)⌋ : ℤ) = 65535 := by norm_num
  have hf0 : 0 ≤ ⌊ratClamp (q * 65535) 0 65535⌋ := Int.floor_nonneg.mpr hcl0
  have hf1 : ⌊ratClamp (q * 65535) 0 65535⌋ ≤ 65535 := by
    have h := Int.floor_mono hcl1
    rw [hfl] at h
    exact h
  refine ⟨?_, ?_, ?_⟩
  · show castU16 (ratClamp (q * 65535) 0 65535) = _
    unfold castU16
    omega
  · show castU16 (ratClamp (q * 65535) 0 65535) ≤ 65535
    unfold castU16
    omega
  · intro h0 h1
    show castU16 (v * 65535) = _
    have g0 : 0 ≤ ⌊v * 65535⌋ := Int.floor_nonneg.mpr (by positivity)
    have g1 : ⌊v * 65535⌋ ≤ 65535 := by
      have hb : v * 65535 ≤ 65535 := by nlinarith
      have h := Int.floor_mono hb
      rw [hfl] at h
      exact h
    unfold castU16
    omega

/-- Witness for C5 as amended, at the in-domain float value 1/2. -/
theorem float_normalization_witness :
    scriptsChannel PixelType.float 0 (1/2) =
      (⌊ratClamp ((1/2 : ℚ) * 65535) 0 65535⌋).toNat ∧
    scaleArchive PixelType.float (1/2) = (⌊(1/2 : ℚ) * 65535⌋).toNat := by
  have h := float_normalization_amended 0 (1/2) (1/2)
  exact ⟨h.1, h.2.2 (by norm_num) (by norm_num)⟩

/-- Counterexample to claim C6: on a two-band raster the script
implementation returns an all-zero color array (for a non-empty valid
mask), it does not fail with an error. -/
theorem scripts_band_two_returns_zeros :
    extract_colors_from_image rBand2 [0] [0] [true] = [⟨0, 0, 0⟩] := by
  simp only [extract_colors_from_image]
  norm_num [countTrue, rBand2]

/-- Claim C6 as amended: a band count neither 1 nor at least 3 makes the
archive colorization fail with the unsupported-band-count error, while the
script extraction logs and returns an all-zero color array of full length;
with one band the sampled value is replicated to all three channels, and
with at least three bands the first band feeds the red channel (bands two
and three feed green and blue in the same way). -/
theorem band_count_amended (T : ℚ × ℚ → ℚ × ℚ) (las : LasData)
    (rr r1 r3 : Raster) (px py : List ℤ) (mask : List Bool) (x y : ℚ)
    (h2 : ¬ (3 ≤ rr.bandCount ∨ rr.bandCount = 1))
    (h1 : r1.bandCount = 1) (h3 : 3 ≤ r3.bandCount) :
    colorize_once T las rr = Except.error "Unsupported number of bands" ∧
    extract_colors_from_image rr px py mask = List.replicate px.length ⟨0, 0, 0⟩ ∧
    ((archiveColorAt r1 x y).g = (archiveColorAt r1 x y).r ∧
     (archiveColorAt r1 x y).b = (archiveColorAt r1 x y).r) ∧
    (archiveColorAt r3 x y).r =
      scaleArchive r3.dtype
        (r3.band 1 (pixelRowAt r3 y).toNat (pixelColAt r3 x).toNat) := by
  refine ⟨?_, ?_, ?_, ?_⟩
  · simp only [colorize_once]
    rw [if_neg h2]
  · simp only [extract_colors_from_image]
    by_cases hz : countTrue mask = 0
    · rw [if_pos hz]
    · rw [if_neg hz, if_neg h2]
  · have hn3 : ¬ 3 ≤ r1.bandCount := by omega
    simp only [archiveColorAt]
    rw [if_neg hn3]
    exact ⟨rfl, rfl⟩
  · simp only [archiveColorAt]
    rw [if_pos h3]

/-- Witness for C6 as amended, on the concrete rasters rBand2, rGray, rU8. -/
theorem band_count_amended_witness :
    colorize_once idT las1 rBand2 = Except.error "Unsupported number of bands" ∧
    (archiveColorAt rGray 0 (1/2)).g = (archiveColorAt rGray 0 (1/2)).r := by
  have h := band_count_amended idT las1 rBand2 rGray rU8 [0] [0] [true] 0 (1/2)
    (by norm_num [rBand2]) (by norm_num [rGray]) (by norm_num [rU8])
  exact ⟨h.1, h.2.2.1.1⟩

/-- Counterexample to claim C3: the script save keeps every input point —
with a two-point cloud and a mask holding a single true entry, the saved
x array still has two entries, not countTrue-many. -/
theorem scripts_save_keeps_all_points :
    (save_colorized_scripts las2 cols2).xs.length = 2 ∧
    countTrue [true, false] = 1 := by
  constructor
  · simp [save_colorized_scripts, las2]
  · rfl

/-- Claim C3 as amended: the archive save trims to exactly the mask-true
points — every attribute array of the output has countTrue-many entries,
the non-color attribute rows of the output are precisely the mask selection
of the positional input rows, and the color rows are the mask selection of
the positional color triples — while the script save (see the
counterexample) keeps all points. -/
theorem archive_save_trims (las : LasData) (colors : List ColorRGB)
    (mask : List Bool) (hl : lasLens las mask.length)
    (hc : colors.length = mask.length) :
    (save_colorized_point_cloud las colors mask).xs.length = countTrue mask ∧
    (save_colorized_point_cloud las colors mask).red.length = countTrue mask ∧
    outRows (save_colorized_point_cloud las colors mask) =
      maskSel (rowsOf las) mask ∧
    colorRows (save_colorized_point_cloud las colors mask) =
      maskSel (colors.map (fun c => (c.r, c.g, c.b))) mask := by
  obtain ⟨h1, h2, h3, h4, h5, h6, h7, h8, h9, h10⟩ := hl
  have L9 : (las.userData.zip las.pointSourceId).length = mask.length := by
    rw [List.length_zip, h9, h10]
    exact min_self _
  have L8 : (las.scanAngleRank.zip
      (las.userData.zip las.pointSourceId)).length = mask.length := by
    rw [List.length_zip, h8, L9]
    exact min_self _
  have L7 : (las.classification.zip (las.scanAngleRank.zip
      (las.userData.zip las.pointSourceId))).length = mask.length := by
    rw [List.length_zip, h7, L8]
    exact min_self _
  have L6 : (las.numberOfReturns.zip (las.classification.zip
      (las.scanAngleRank.zip
        (las.userData.zip las.pointSourceId)))).length = mask.length := by
    rw [List.length_zip, h6, L7]
    exact min_self _
  have L5 : (las.returnNumber.zip (las.numberOfReturns.zip
      (las.classification.zip (las.scanAngleRank.zip
        (las.userData.zip las.pointSourceId))))).length = mask.length := by
    rw [List.length_zip, h5, L6]
    exact min_self _
  have L4 : (las.intensity.zip (las.returnNumber.zip
      (las.numberOfReturns.zip (las.classification.zip
        (las.scanAngleRank.zip
          (las.userData.zip las.pointSourceId)))))).length = mask.length := by
    rw [List.length_zip, h4, L5]
    exact min_self _
  have L3 : (las.zs.zip (las.intensity.zip (las.returnNumber.zip
      (las.numberOfReturns.zip (las.classification.zip
        (las.scanAngleRank.zip
          (las.userData.zip las.pointSourceId))))))).length = mask.length := by
    rw [List.length_zip, h3, L4]
    exact min_self _
  have L2 : (las.ys.zip (las.zs.zip (las.intensity.zip
      (las.returnNumber.zip (las.numberOfReturns.zip
        (las.classification.zip (las.scanAngleRank.zip
          (las.userData.zip las.pointSourceId)))))))).length = mask.length := by
    rw [List.length_zip, h2, L3]
    exact min_self _
  refine ⟨?_, ?_, ?_, ?_⟩
  · exact maskSel_length _ _ h1
  · show (maskSel (colors.map ColorRGB.r) mask).length = countTrue mask
    exact maskSel_length _ _ (by rw [List.length_map, hc])
  · show (maskSel las.xs mask).zip ((maskSel las.ys mask).zip
      ((maskSel las.zs mask).zip ((maskSel las.intensity mask).zip
        ((maskSel las.returnNumber mask).zip
          ((maskSel las.numberOfReturns mask).zip
            ((maskSel las.classification mask).zip
              ((maskSel las.scanAngleRank mask).zip
                ((maskSel las.userData mask).zip
                  (maskSel las.pointSourceId mask))))))))) =
      maskSel (rowsOf las) mask
    rw [rowsOf, maskSel_zip _ _ _ h1 L2, maskSel_zip _ _ _ h2 L3,
      maskSel_zip _ _ _ h3 L4, maskSel_zip _ _ _ h4 L5,
      maskSel_zip _ _ _ h5 L6, maskSel_zip _ _ _ h6 L7,
      maskSel_zip _ _ _ h7 L8, maskSel_zip _ _ _ h8 L9,
      maskSel_zip _ _ _ h9 h10]
  · have hsplit : ∀ cl : List ColorRGB, cl.map (fun c => (c.r, c.g, c.b)) =
        (cl.map ColorRGB.r).zip
          ((cl.map ColorRGB.g).zip (cl.map ColorRGB.b)) := by
      intro cl
      induction cl with
      | nil => rfl
      | cons c cs ih => simp [ih]
    have Lr : (colors.map ColorRGB.r).length = mask.length := by
      rw [List.length_map, hc]
    have Lg : (colors.map ColorRGB.g).length = mask.length := by
      rw [List.length_map, hc]
    have Lb : (colors.map ColorRGB.b).length = mask.length := by
      rw [List.length_map, hc]
    have Lgb : ((colors.map ColorRGB.g).zip
        (colors.map ColorRGB.b)).length = mask.length := by
      rw [List.length_zip, Lg, Lb]
      exact min_self _
    show (maskSel (colors.map ColorRGB.r) mask).zip
        ((maskSel (colors.map ColorRGB.g) mask).zip
          (maskSel (colors.map ColorRGB.b) mask)) =
      maskSel (colors.map (fun c => (c.r, c.g, c.b))) mask
    rw [hsplit colors, maskSel_zip _ _ _ Lr Lgb, maskSel_zip _ _ _ Lg Lb]

/-- Witness for C3 as amended on a concrete two-point cloud. -/
theorem archive_save_trims_witness :
    (save_colorized_point_cloud las2 cols2 [true, false]).xs.length =
      countTrue [true, false] := by
  exact (archive_save_trims las2 cols2 [true, false]
    (by simp [lasLens, las2]) (by simp [cols2])).1

/-- Inversion for a successful single colorization pass: the returned mask
is the validity mask and the color array has one entry per mask entry. -/
theorem colorize_once_ok (T : ℚ × ℚ → ℚ × ℚ) (las : LasData) (r : Raster)
    (colors : List ColorRGB) (mask : List Bool)
    (h : colorize_once T las r = Except.ok (colors, mask)) :
    mask = validMaskList r (transformPC T las) ∧
    colors.length = mask.length := by
  simp only [colorize_once] at h
  by_cases hb : 3 ≤ r.bandCount ∨ r.bandCount = 1
  · rw [if_pos hb] at h
    simp only [Except.ok.injEq, Prod.mk.injEq] at h
    obtain ⟨hcol, hmask⟩ := h
    refine ⟨hmask.symm, ?_⟩
    rw [← hcol, ← hmask]
    simp [validMaskList]
  · rw [if_neg hb] at h
    exact absurd h (by simp)

/-- Claim C9: for every successful run of the pipeline (through the
correction loop), the number of colorized points — mask-selected colors with
any non-zero channel, as counted by create_summary_report — is at most the
number of valid points, which is at most the total point count. -/
theorem colorized_le_valid_le_total (T : ℚ × ℚ → ℚ × ℚ) (las : LasData)
    (r : Raster) (oracle : List Raster) (colors : List ColorRGB)
    (mask : List Bool) (hys : las.ys.length = las.xs.length)
    (h : colorize_point_cloud T las r oracle = Except.ok (colors, mask)) :
    colorizedCount colors mask ≤ countTrue mask ∧
    countTrue mask ≤ totalPoints las := by
  have key : ∃ rr, colorize_once T las rr = Except.ok (colors, mask) := by
    induction oracle generalizing r with
    | nil =>
      simp only [colorize_point_cloud] at h
      by_cases hl : lowCoverage T las r = true
      · rw [if_pos hl] at h
        by_cases hz : numValid T las r = 0
        · rw [if_pos hz] at h
          exact absurd h (by simp)
        · rw [if_neg hz] at h
          exact ⟨r, h⟩
      · rw [if_neg hl] at h
        exact ⟨r, h⟩
    | cons rk rest ih =>
      simp only [colorize_point_cloud] at h
      by_cases hl : lowCoverage T las r = true
      · rw [if_pos hl] at h
        exact ih rk h
      · rw [if_neg hl] at h
        exact ⟨r, h⟩
  obtain ⟨rr, hok⟩ := key
  obtain ⟨hmask, hlen⟩ := colorize_once_ok T las rr colors mask hok
  constructor
  · calc colorizedCount colors mask
        ≤ (maskSel colors mask).length := List.length_filter_le _ _
      _ = countTrue mask := maskSel_length _ _ hlen
  · have hmlen : mask.length = las.xs.length := by
      rw [hmask]
      simp [validMaskList, transformPC, hys]
    calc countTrue mask ≤ mask.length := countTrue_le_length mask
      _ = totalPoints las := hmlen

/-- Concrete evaluation: the single point of las1 is covered by rU8, so
coverage is full and the correction loop is not triggered. -/
theorem lc_rU8 : lowCoverage idT las1 rU8 = false := by
  norm_num [lowCoverage, numValid, countTrue, validMaskList, transformPC,
    las1, rU8, idT, validAtCoord, pixelColAt, pixelRowAt, usedPixA,
    usedPixC, usedPixE, usedPixF, transformIssueB, expectedPixelW,
    expectedPixelH, bLeft, bRight, bTop, bBottom, totalPoints]

/-- Concrete evaluation of a full successful run on las1 and rU8. -/
theorem run_rU8 : colorize_point_cloud idT las1 rU8 [] =
    Except.ok ([⟨51400, 51400, 51400⟩], [true]) := by
  simp only [colorize_point_cloud]
  rw [if_neg (by simp [lc_rU8])]
  norm_num [colorize_once, transformPC, validMaskList, las1, rU8, idT,
    validAtCoord, pixelColAt, pixelRowAt, usedPixA, usedPixC, usedPixE,
    usedPixF, transformIssueB, expectedPixelW, expectedPixelH, bLeft,
    bRight, bTop, bBottom, archiveColorAt, scaleArchive, castU16]
  decide

/-- Witness for C9 on the concrete run of las1 against rU8. -/
theorem colorized_le_valid_le_total_witness :
    colorizedCount [⟨51400, 51400, 51400⟩] [true] ≤ countTrue [true] ∧
    countTrue [true] ≤ totalPoints las1 :=
  colorized_le_valid_le_total idT las1 rU8 [] _ _ rfl run_rU8

/-- Claim C8: with the correction loop not triggered, the colorization and
the full run (including the saved output cloud) are independent of the
external acquisition environment and deterministic — two runs on identical
inputs, whatever rasters the correction service would have served, produce
identical color arrays, masks and output clouds. -/
theorem colorization_deterministic (T : ℚ × ℚ → ℚ × ℚ) (las : LasData)
    (r : Raster) (o1 o2 : List Raster) (h : lowCoverage T las r = false) :
    colorize_point_cloud T las r o1 = colorize_point_cloud T las r o2 ∧
    runColorization T las r o1 = runColorization T las r o2 := by
  have key : ∀ o : List Raster,
      colorize_point_cloud T las r o = colorize_once T las r := by
    intro o
    cases o with
    | nil =>
      simp only [colorize_point_cloud]
      rw [if_neg (by simp [h])]
    | cons a l =>
      simp only [colorize_point_cloud]
      rw [if_neg (by simp [h])]
  refine ⟨(key o1).trans (key o2).symm, ?_⟩
  unfold runColorization
  rw [key o1, key o2]

/-- Witness for C8: the empty and a non-empty acquisition environment give
the same run on las1 and rU8. -/
theorem colorization_deterministic_witness :
    colorize_point_cloud idT las1 rU8 [] =
      colorize_point_cloud idT las1 rU8 [rFar] ∧
    runColorization idT las1 rU8 [] = runColorization idT las1 rU8 [rFar] :=
  colorization_deterministic idT las1 rU8 [] [rFar] lc_rU8

theorem transformAll_append (t : ℚ × ℚ → Except String (ℚ × ℚ))
    (l1 l2 : List (ℚ × ℚ)) :
    transformAll t (l1 ++ l2) =
      match transformAll t l1 with
      | Except.error e => Except.error e
      | Except.ok a =>
        match transformAll t l2 with
        | Except.error e => Except.error e
        | Except.ok b => Except.ok (a ++ b) := by
  induction l1 with
  | nil =>
    simp only [List.nil_append, transformAll]
    cases transformAll t l2 <;> rfl
  | cons p ps ih =>
    have step : transformAll t ((p :: ps) ++ l2) =
        match t p with
        | Except.error e => Except.error e
        | Except.ok q =>
          match transformAll t (ps ++ l2) with
          | Except.error e => Except.error e
          | Except.ok qs => Except.ok (q :: qs) := rfl
    rw [step, ih]
    show _ =
      match
        (match t p with
        | Except.error e => Except.error e
        | Except.ok q =>
          match transformAll t ps with
          | Except.error e => Except.error e
          | Except.ok qs => Except.ok (q :: qs)) with
      | Except.error e => Except.error e
      | Except.ok a =>
        match transformAll t l2 with
        | Except.error e => Except.error e
        | Except.ok b => Except.ok (a ++ b)
    cases t p <;> cases transformAll t ps <;> cases transformAll t l2 <;> rfl

theorem transformAll_length (t : ℚ × ℚ → Except String (ℚ × ℚ))
    (xs ys : List (ℚ × ℚ)) (h : transformAll t xs = Except.ok ys) :
    ys.length = xs.length := by
  induction xs generalizing ys with
  | nil =>
    simp only [transformAll, Except.ok.injEq] at h
    subst h
    rfl
  | cons p ps ih =>
    simp only [transformAll] at h
    cases htp : t p with
    | error e =>
      rw [htp] at h
      exact absurd h (by simp)
    | ok q =>
      rw [htp] at h
      cases hrec : transformAll t ps with
      | error e =>
        rw [hrec] at h
        exact absurd h (by simp)
      | ok qs =>
        rw [hrec] at h
        simp only [Except.ok.injEq] at h
        subst h
        simp [ih qs hrec]

theorem transform_batched_eq_fuel (t : ℚ × ℚ → Except String (ℚ × ℚ)) :
    ∀ (n : ℕ) (xs : List (ℚ × ℚ)), xs.length ≤ n →
      transform_batched t xs = transformAll t xs := by
  intro n
  induction n with
  | zero =>
    intro xs h
    cases xs with
    | nil => rw [transform_batched, transformAll]
    | cons p ps => simp at h
  | succ n ih =>
    intro xs h
    cases xs with
    | nil => rw [transform_batched, transformAll]
    | cons p ps =>
      rw [transform_batched]
      have hd : ((p :: ps).drop batchSize).length ≤ n := by
        simp only [List.length_cons] at h
        simp only [List.length_drop, List.length_cons, batchSize]
        omega
      rw [ih _ hd]
      conv_rhs => rw [← List.take_append_drop batchSize (p :: ps),
        transformAll_append]

/-- Claim C7: the batched transform loop is equivalent to one whole-array
transformer call — same length, same order, element for element — and a
failing batch aborts the whole operation with the chained transformation
failure, returning no partial result. -/
theorem batched_transform_refines (t : ℚ × ℚ → Except String (ℚ × ℚ))
    (coords : List (ℚ × ℚ)) :
    transform_batched t coords = transformAll t coords ∧
    (∀ res, transformAll t coords = Except.ok res →
      res.length = coords.length) ∧
    (∀ e, transform_batched t coords = Except.error e →
      transform_point_cloud_to_ortho_crs t coords =
        Except.error ("Coordinate transformation failed: " ++ e)) := by
  refine ⟨transform_batched_eq_fuel t coords.length coords le_rfl, ?_, ?_⟩
  · intro res hres
    exact transformAll_length t coords res hres
  · intro e he
    unfold transform_point_cloud_to_ortho_crs
    rw [he]

/-- Witness for C7: a two-point array under the identity transformer, and a
one-point array under an always-failing transformer yielding the chained
abort. -/
theorem batched_transform_refines_witness :
    transform_batched tOkId [(1, 2), (3, 4)] = transformAll tOkId [(1, 2), (3, 4)] ∧
    ([(1, 2), (3, 4)] : List (ℚ × ℚ)).length = ([(1, 2), (3, 4)] : List (ℚ × ℚ)).length ∧
    transform_point_cloud_to_ortho_crs tFail [(1, 2)] =
      Except.error ("Coordinate transformation failed: " ++ "proj error") := by
  have herr : transform_batched tFail [(1, 2)] = Except.error "proj error" := by
    rw [(batched_transform_refines tFail [(1, 2)]).1]
    rfl
  exact ⟨(batched_transform_refines tOkId [(1, 2), (3, 4)]).1,
    (batched_transform_refines tOkId [(1, 2), (3, 4)]).2.1 [(1, 2), (3, 4)] rfl,
    (batched_transform_refines tFail [(1, 2)]).2.2 "proj error" herr⟩
